import Mathlib

/-!
Verification of the ContentGem Python SDK (`contentgem` package): a shallow
embedding of its data model (`src/contentgem/types.py`) and polling core
(`src/contentgem/client.py`), with theorems settling the specification's
claims about serialization, decoding, and the `wait_for_generation` /
`wait_for_bulk_generation` loops.
-/

namespace ContentGem

/-- A Python/JSON value, as far as the SDK manipulates them: the SDK does no
type validation, so record fields hold raw values. -/
inductive PyVal where
  | str (s : String)
  | int (n : Int)
  | bool (b : Bool)
  | list (xs : List PyVal)
  | dict (kvs : List (String × PyVal))
  | none
deriving Repr

/-- A Python dict with string keys, as an association list in insertion
order (Python 3.7+ dicts preserve insertion order). -/
abbrev Dict := List (String × PyVal)

/-- `d.get(k)`: first binding of `k`, `None` (here `Option.none`) if absent. -/
def dictGet (d : Dict) (k : String) : Option PyVal :=
  (d.find? (fun kv => kv.1 == k)).map (fun kv => kv.2)

/-- Python truthiness of an optional dict: `None` and `{}` are falsy. -/
def truthyDict : Option Dict → Bool
  | Option.none => false
  | Option.some d => !d.isEmpty

/-- `types.py` `GenerationStatus`: `success`, optional `data` dict, optional
`message` and `error` strings. -/
structure GenerationStatus where
  success : Bool
  data : Option Dict := Option.none
  message : Option String := Option.none
  error : Option String := Option.none

namespace GenerationStatus

/-- `GenerationStatus.status`: `self.data.get("status") if self.data else None`. -/
def status (g : GenerationStatus) : Option PyVal :=
  match g.data with
  | Option.some d => if truthyDict (Option.some d) then dictGet d "status" else Option.none
  | Option.none => Option.none

/-- `GenerationStatus.is_completed`: `self.status == "completed"`. -/
def is_completed (g : GenerationStatus) : Bool :=
  match g.status with
  | Option.some (PyVal.str s) => s == "completed"
  | _ => false

/-- `GenerationStatus.is_failed`: `self.status == "failed"`. -/
def is_failed (g : GenerationStatus) : Bool :=
  match g.status with
  | Option.some (PyVal.str s) => s == "failed"
  | _ => false

end GenerationStatus

/-- `types.py` `BulkGenerationStatus`: same envelope shape as
`GenerationStatus`, with bulk-specific accessors. -/
structure BulkGenerationStatus where
  success : Bool
  data : Option Dict := Option.none
  message : Option String := Option.none
  error : Option String := Option.none

namespace BulkGenerationStatus

/-- `BulkGenerationStatus.status`: `self.data.get("status") if self.data else None`. -/
def status (g : BulkGenerationStatus) : Option PyVal :=
  match g.data with
  | Option.some d => if truthyDict (Option.some d) then dictGet d "status" else Option.none
  | Option.none => Option.none

/-- `BulkGenerationStatus.completed_prompts`. -/
def completed_prompts (g : BulkGenerationStatus) : Option PyVal :=
  match g.data with
  | Option.some d => if truthyDict (Option.some d) then dictGet d "completed_prompts" else Option.none
  | Option.none => Option.none

/-- `BulkGenerationStatus.failed_prompts`. -/
def failed_prompts (g : BulkGenerationStatus) : Option PyVal :=
  match g.data with
  | Option.some d => if truthyDict (Option.some d) then dictGet d "failed_prompts" else Option.none
  | Option.none => Option.none

/-- `BulkGenerationStatus.is_completed`: `self.status == "completed"`. -/
def is_completed (g : BulkGenerationStatus) : Bool :=
  match g.status with
  | Option.some (PyVal.str s) => s == "completed"
  | _ => false

/-- `BulkGenerationStatus.is_failed`: `self.status == "failed"`. -/
def is_failed (g : BulkGenerationStatus) : Bool :=
  match g.status with
  | Option.some (PyVal.str s) => s == "failed"
  | _ => false

end BulkGenerationStatus

/-- `client.py` `check_bulk_generation_status`: wraps the response envelope
into a `BulkGenerationStatus` via `BulkGenerationStatus(**response)`, with no
validation of the payload. -/
def check_bulk_generation_status (success : Bool) (data : Option Dict)
    (message error : Option String) : BulkGenerationStatus :=
  { success := success, data := data, message := message, error := error }

/-- Outcome of one run of a polling loop: how it ended. A `raise` in the
Python code is an error constructor here. -/
inductive PollResult (α : Type) where
  | success (s : α)
  | jobFailed
  | timeout
deriving Repr

/-- One run of a polling loop together with how many status fetches it
performed and how many times it slept. -/
structure PollOutcome (α : Type) where
  result : PollResult α
  fetches : Nat
  sleeps : Nat

/-- The loop body of `wait_for_generation` / `wait_for_bulk_generation`,
from loop index `attempt` onwards (`for attempt in range(max_attempts)`):
fetch the status for this attempt; return it if `is_completed`; raise a
job-failed error if `is_failed`; otherwise sleep unless
`attempt < max_attempts - 1` fails, and continue; after the last iteration
raise `TimeoutError`. `fetch i` is the status returned by the i-th
(0-based) call of the status operation. -/
def pollAux {α : Type} (isCompleted isFailed : α → Bool) (fetch : Nat → α)
    (max_attempts attempt : Nat) : PollOutcome α :=
  if _h : attempt < max_attempts then
    let status := fetch attempt
    if isCompleted status then
      { result := PollResult.success status, fetches := 1, sleeps := 0 }
    else if isFailed status then
      { result := PollResult.jobFailed, fetches := 1, sleeps := 0 }
    else
      let rest := pollAux isCompleted isFailed fetch max_attempts (attempt + 1)
      if attempt < max_attempts - 1 then
        { result := rest.result, fetches := rest.fetches + 1, sleeps := rest.sleeps + 1 }
      else
        { result := rest.result, fetches := rest.fetches + 1, sleeps := rest.sleeps }
  else
    { result := PollResult.timeout, fetches := 0, sleeps := 0 }
termination_by max_attempts - attempt

/-- Default `max_attempts` of `wait_for_generation`. -/
def wait_for_generation_default_max_attempts : Int := 60

/-- Default `delay_seconds` of `wait_for_generation`. -/
def wait_for_generation_default_delay_seconds : Int := 5

/-- Default `max_attempts` of `wait_for_bulk_generation`. -/
def wait_for_bulk_generation_default_max_attempts : Int := 120

/-- Default `delay_seconds` of `wait_for_bulk_generation`. -/
def wait_for_bulk_generation_default_delay_seconds : Int := 10

/-- `client.py` `wait_for_generation`, with the sequence of statuses the
server would return given as `fetch` (the i-th status fetch returns
`fetch i`). `range(max_attempts)` on a Python int iterates
`max(0, max_attempts)` times; `delay_seconds` only affects wall-clock time,
which the outcome records as a sleep count. -/
def wait_for_generation (fetch : Nat → GenerationStatus)
    (max_attempts : Int := wait_for_generation_default_max_attempts)
    (delay_seconds : Int := wait_for_generation_default_delay_seconds) :
    PollOutcome GenerationStatus :=
  let _ := delay_seconds
  pollAux GenerationStatus.is_completed GenerationStatus.is_failed fetch
    max_attempts.toNat 0

/-- `client.py` `wait_for_bulk_generation`, embedded like
`wait_for_generation`. -/
def wait_for_bulk_generation (fetch : Nat → BulkGenerationStatus)
    (max_attempts : Int := wait_for_bulk_generation_default_max_attempts)
    (delay_seconds : Int := wait_for_bulk_generation_default_delay_seconds) :
    PollOutcome BulkGenerationStatus :=
  let _ := delay_seconds
  pollAux BulkGenerationStatus.is_completed BulkGenerationStatus.is_failed fetch
    max_attempts.toNat 0

/-- One entry of a serialized payload for an optional field: the field's key
paired with its value when the field is set, nothing when it is skipped. -/
def optEntry (k : String) : Option PyVal → Dict
  | Option.some v => [(k, v)]
  | Option.none => []

/-- `types.py` `CompanyInfo`: six optional fields, in declaration order. -/
structure CompanyInfo where
  name : Option String := Option.none
  description : Option String := Option.none
  industry : Option String := Option.none
  target_audience : Option String := Option.none
  content_preferences : Option Dict := Option.none
  tone : Option String := Option.none

/-- `CompanyInfo.to_dict`: iterate `self.__dict__` in field-declaration
order, keep only fields whose value is not `None`. -/
def CompanyInfo.to_dict (c : CompanyInfo) : Dict :=
  optEntry "name" (c.name.map PyVal.str)
  ++ optEntry "description" (c.description.map PyVal.str)
  ++ optEntry "industry" (c.industry.map PyVal.str)
  ++ optEntry "target_audience" (c.target_audience.map PyVal.str)
  ++ optEntry "content_preferences" (c.content_preferences.map PyVal.dict)
  ++ optEntry "tone" (c.tone.map PyVal.str)

/-- `types.py` `CompanyData`: fifteen optional fields, in declaration order. -/
structure CompanyData where
  name : Option String := Option.none
  description : Option String := Option.none
  industry : Option String := Option.none
  website : Option String := Option.none
  contact_email : Option String := Option.none
  contact_phone : Option String := Option.none
  address : Option String := Option.none
  social_media : Option Dict := Option.none
  logo_url : Option String := Option.none
  founded_year : Option Int := Option.none
  employee_count : Option String := Option.none
  revenue : Option String := Option.none
  target_audience : Option String := Option.none
  services : Option (List String) := Option.none
  keywords : Option (List String) := Option.none

/-- `CompanyData.to_dict`: iterate `self.__dict__` in field-declaration
order, keep only fields whose value is not `None`. -/
def CompanyData.to_dict (c : CompanyData) : Dict :=
  optEntry "name" (c.name.map PyVal.str)
  ++ optEntry "description" (c.description.map PyVal.str)
  ++ optEntry "industry" (c.industry.map PyVal.str)
  ++ optEntry "website" (c.website.map PyVal.str)
  ++ optEntry "contact_email" (c.contact_email.map PyVal.str)
  ++ optEntry "contact_phone" (c.contact_phone.map PyVal.str)
  ++ optEntry "address" (c.address.map PyVal.str)
  ++ optEntry "social_media" (c.social_media.map PyVal.dict)
  ++ optEntry "logo_url" (c.logo_url.map PyVal.str)
  ++ optEntry "founded_year" (c.founded_year.map PyVal.int)
  ++ optEntry "employee_count" (c.employee_count.map PyVal.str)
  ++ optEntry "revenue" (c.revenue.map PyVal.str)
  ++ optEntry "target_audience" (c.target_audience.map PyVal.str)
  ++ optEntry "services" (c.services.map (fun xs => PyVal.list (xs.map PyVal.str)))
  ++ optEntry "keywords" (c.keywords.map (fun xs => PyVal.list (xs.map PyVal.str)))

/-- `types.py` `GenerationRequest`: required `prompt`, optional
`company_info` and `keywords`. -/
structure GenerationRequest where
  prompt : String
  company_info : Option CompanyInfo := Option.none
  keywords : Option (List String) := Option.none

/-- `GenerationRequest.to_dict`: start from `{"prompt": ...}`; add
`company_info` when truthy (a dataclass instance is always truthy, so any
set value is included); add `keywords` when truthy (`None` and `[]` are
both falsy and skipped). -/
def GenerationRequest.to_dict (r : GenerationRequest) : Dict :=
  [("prompt", PyVal.str r.prompt)]
  ++ (match r.company_info with
      | Option.some ci => [("company_info", PyVal.dict ci.to_dict)]
      | Option.none => [])
  ++ (match r.keywords with
      | Option.some ks =>
          if ks.isEmpty then [] else [("keywords", PyVal.list (ks.map PyVal.str))]
      | Option.none => [])

/-- `data[k]` on a Python dict: the value when present, else a `KeyError`
carrying the key. -/
def requireKey (d : Dict) (k : String) : Except String PyVal :=
  match dictGet d k with
  | Option.some v => Except.ok v
  | Option.none => Except.error k

/-- `types.py` `Publication`: nine required fields (read with `data[...]`)
and twelve optional ones (read with `data.get(...)`). The SDK performs no
type validation, so fields hold raw values. -/
structure Publication where
  id : PyVal
  title : PyVal
  content : PyVal
  type : PyVal
  status : PyVal
  content_length : PyVal
  images_count : PyVal
  created_at : PyVal
  updated_at : PyVal
  meta_title : Option PyVal := Option.none
  meta_description : Option PyVal := Option.none
  company_name : Option PyVal := Option.none
  company_description : Option PyVal := Option.none
  company_industry : Option PyVal := Option.none
  company_target_audience : Option PyVal := Option.none
  topic : Option PyVal := Option.none
  structure' : Option PyVal := Option.none
  images : Option PyVal := Option.none
  quality_score : Option PyVal := Option.none
  generation_time_seconds : Option PyVal := Option.none
  published_at : Option PyVal := Option.none

/-- `Publication.from_dict`: required camelCase wire fields are read with
`data[...]` (a missing one raises `KeyError(key)`, evaluated in argument
order), optional ones with `data.get(...)`. -/
def Publication.from_dict (data : Dict) : Except String Publication := do
  let id ← requireKey data "id"
  let title ← requireKey data "title"
  let content ← requireKey data "content"
  let type ← requireKey data "type"
  let status ← requireKey data "status"
  let content_length ← requireKey data "contentLength"
  let images_count ← requireKey data "imagesCount"
  let created_at ← requireKey data "createdAt"
  let updated_at ← requireKey data "updatedAt"
  Except.ok
    { id := id, title := title, content := content, type := type,
      status := status, content_length := content_length,
      images_count := images_count, created_at := created_at,
      updated_at := updated_at,
      meta_title := dictGet data "metaTitle",
      meta_description := dictGet data "metaDescription",
      company_name := dictGet data "companyName",
      company_description := dictGet data "companyDescription",
      company_industry := dictGet data "companyIndustry",
      company_target_audience := dictGet data "companyTargetAudience",
      topic := dictGet data "topic",
      structure' := dictGet data "structure",
      images := dictGet data "images",
      quality_score := dictGet data "qualityScore",
      generation_time_seconds := dictGet data "generationTimeSeconds",
      published_at := dictGet data "publishedAt" }

/-- `types.py` `Image`: seven required fields and three optional ones. -/
structure Image where
  id : PyVal
  filename : PyVal
  original_name : PyVal
  mime_type : PyVal
  size : PyVal
  url : PyVal
  created_at : PyVal
  prompt : Option PyVal := Option.none
  tags : Option PyVal := Option.none
  publication_id : Option PyVal := Option.none

/-- `Image.from_dict`: required wire fields with `data[...]`, optional ones
with `data.get(...)`. -/
def Image.from_dict (data : Dict) : Except String Image := do
  let id ← requireKey data "id"
  let filename ← requireKey data "filename"
  let original_name ← requireKey data "originalName"
  let mime_type ← requireKey data "mimeType"
  let size ← requireKey data "size"
  let url ← requireKey data "url"
  let created_at ← requireKey data "createdAt"
  Except.ok
    { id := id, filename := filename, original_name := original_name,
      mime_type := mime_type, size := size, url := url,
      created_at := created_at,
      prompt := dictGet data "prompt",
      tags := dictGet data "tags",
      publication_id := dictGet data "publicationId" }

/-! ### Helper lemmas -/

theorem GenerationStatus.is_completed_iff (g : GenerationStatus) :
    g.is_completed = true ↔ g.status = Option.some (PyVal.str "completed") := by
  unfold GenerationStatus.is_completed
  cases h : g.status with
  | none => simp
  | some v => cases v <;> simp_all

theorem GenerationStatus.is_failed_iff (g : GenerationStatus) :
    g.is_failed = true ↔ g.status = Option.some (PyVal.str "failed") := by
  unfold GenerationStatus.is_failed
  cases h : g.status with
  | none => simp
  | some v => cases v <;> simp_all

theorem GenerationStatus.not_completed_of_failed (g : GenerationStatus)
    (h : g.is_failed = true) : g.is_completed = false := by
  rw [GenerationStatus.is_failed_iff] at h
  rcases hc : g.is_completed with _ | _
  · rfl
  · rw [GenerationStatus.is_completed_iff] at hc
    rw [h] at hc
    simp at hc

/-- A run of `pollAux` that hits a completed status after `k` further
non-terminal fetches: it returns that status with `k + 1` fetches and `k`
sleeps counted from the current attempt. -/
theorem pollAux_success {α : Type} (ic isf : α → Bool) (fetch : Nat → α)
    (M : Nat) :
    ∀ (k a : Nat), a + k < M →
    (∀ i, i < k → ic (fetch (a + i)) = false ∧ isf (fetch (a + i)) = false) →
    ic (fetch (a + k)) = true →
    pollAux ic isf fetch M a =
      { result := PollResult.success (fetch (a + k)), fetches := k + 1,
        sleeps := k } := by
  intro k
  induction k with
  | zero =>
    intro a hlt _ hc
    unfold pollAux
    simp only [Nat.add_zero] at hc hlt
    simp [hlt, hc]
  | succ k ih =>
    intro a hlt hnt hc
    have h0 := hnt 0 (Nat.succ_pos k)
    simp only [Nat.add_zero] at h0
    have ha : a < M := by omega
    have ha1 : a < M - 1 := by omega
    have hrec := ih (a + 1) (by omega)
      (fun i hi => by
        have := hnt (i + 1) (by omega)
        simpa [Nat.add_assoc, Nat.add_comm 1 i] using this)
      (by
        have heq : a + 1 + k = a + (k + 1) := by omega
        rw [heq]; exact hc)
    unfold pollAux
    simp only [ha, dite_true, h0.1, h0.2, if_false, Bool.false_eq_true, ite_false]
    rw [hrec]
    simp only [ha1, if_true]
    have heq : a + 1 + k = a + (k + 1) := by omega
    rw [heq]

/-- A run of `pollAux` in which every fetched status is non-terminal times
out after `k` fetches and `k - 1` sleeps, where `k` is the number of
remaining attempts. -/
theorem pollAux_timeout {α : Type} (ic isf : α → Bool) (fetch : Nat → α)
    (M : Nat)
    (hnt : ∀ i, ic (fetch i) = false ∧ isf (fetch i) = false) :
    ∀ (k a : Nat), a + k = M →
    pollAux ic isf fetch M a =
      { result := PollResult.timeout, fetches := k, sleeps := k - 1 } := by
  intro k
  induction k with
  | zero =>
    intro a ha
    unfold pollAux
    simp [show ¬ a < M by omega]
  | succ k ih =>
    intro a ha
    have hlt : a < M := by omega
    have hrec := ih (a + 1) (by omega)
    unfold pollAux
    simp only [hlt, dite_true, (hnt a).1, (hnt a).2, Bool.false_eq_true,
      if_false, ite_false]
    rw [hrec]
    rcases Nat.eq_zero_or_pos k with hk | hk
    · subst hk
      simp [show ¬ a < M - 1 by omega]
    · simp only [show a < M - 1 by omega, if_true]
      simp [Nat.succ_sub_one]
      omega

/-- Any run of `pollAux` performs at most as many fetches as there are
remaining attempts. -/
theorem pollAux_fetches_le {α : Type} (ic isf : α → Bool) (fetch : Nat → α)
    (M : Nat) : ∀ (k a : Nat), a + k = M →
    (pollAux ic isf fetch M a).fetches ≤ k := by
  intro k
  induction k with
  | zero =>
    intro a ha
    unfold pollAux
    simp [show ¬ a < M by omega]
  | succ k ih =>
    intro a ha
    have hlt : a < M := by omega
    have hrec := ih (a + 1) (by omega)
    unfold pollAux
    simp only [hlt, dite_true]
    by_cases hc : ic (fetch a) = true
    · simp [hc]
    · by_cases hf : isf (fetch a) = true
      · simp [hc, hf]
      · simp only [hc, hf, if_false, ite_false]
        by_cases h1 : a < M - 1 <;> simp [h1] <;> omega

/-! ### Concrete fixtures for witnesses and counterexamples -/

/-- A generation-status envelope whose `data` carries the given `status`
string, as the server returns it. -/
def genStatusOf (s : String) : GenerationStatus :=
  { success := true, data := Option.some [("status", PyVal.str s)] }

/-- Status-fetch stub: `generating` on the first two calls, `completed`
from the third call on. -/
def stubGenThenComplete (i : Nat) : GenerationStatus :=
  if i < 2 then genStatusOf "generating" else genStatusOf "completed"

/-- Status-fetch stub that always returns `generating`. -/
def stubAlwaysGenerating (_ : Nat) : GenerationStatus :=
  genStatusOf "generating"

/-- Status-fetch stub that returns `failed` on every call. -/
def stubFailed (_ : Nat) : GenerationStatus :=
  genStatusOf "failed"

/-- A bulk-status stub (contents irrelevant to the claims that use it). -/
def stubBulk (_ : Nat) : BulkGenerationStatus :=
  { success := true, data := Option.some [("status", PyVal.str "processing")] }

/-! ### Claims -/

/-- C1: for every `N` with `1 ≤ N ≤ max_attempts`, if the status fetch
returns a non-terminal status on each of the first `N - 1` calls and a
completed status on call `N`, then `wait_for_generation` returns the status
object fetched on call `N` (0-based index `N - 1`) and performs exactly `N`
status fetches (sleeping `N - 1` times). -/
theorem wait_for_generation_returns_nth_fetch
    (fetch : Nat → GenerationStatus) (max_attempts delay_seconds : Int)
    (N : Nat) (h1 : 1 ≤ N) (h2 : (N : Int) ≤ max_attempts)
    (hnt : ∀ i, i < N - 1 →
      (fetch i).is_completed = false ∧ (fetch i).is_failed = false)
    (hc : (fetch (N - 1)).is_completed = true) :
    wait_for_generation fetch max_attempts delay_seconds =
      { result := PollResult.success (fetch (N - 1)), fetches := N,
        sleeps := N - 1 } := by
  unfold wait_for_generation
  have h := pollAux_success GenerationStatus.is_completed
    GenerationStatus.is_failed fetch max_attempts.toNat (N - 1) 0
    (by omega)
    (fun i hi => by simpa using hnt i hi)
    (by simpa using hc)
  simpa [show N - 1 + 1 = N by omega] using h

/-- C1 witness: with a stub returning `generating` twice then `completed`,
and `max_attempts = 5`, polling returns the third fetched status after
exactly 3 fetches and 2 sleeps. -/
theorem wait_for_generation_returns_nth_fetch_witness :
    wait_for_generation stubGenThenComplete 5 0 =
      { result := PollResult.success (stubGenThenComplete 2), fetches := 3,
        sleeps := 2 } :=
  wait_for_generation_returns_nth_fetch stubGenThenComplete 5 0 3
    (by decide) (by decide) (by decide) (by decide)

/-- C2: if every status fetch is non-terminal, `wait_for_generation` with
`max_attempts = M ≥ 1` performs exactly `M` fetches and `M - 1` sleeps
(never sleeping after the last attempt) and ends in the timeout error — in
particular with `max_attempts = 3` it is 3 fetches and 2 sleeps — and every
run, whatever the fetched statuses, performs at most `max_attempts`
fetches. -/
theorem wait_for_generation_times_out
    (fetch : Nat → GenerationStatus) (max_attempts delay_seconds : Int)
    (_hM : 1 ≤ max_attempts)
    (hnt : ∀ i, (fetch i).is_completed = false ∧ (fetch i).is_failed = false) :
    wait_for_generation fetch max_attempts delay_seconds =
      { result := PollResult.timeout, fetches := max_attempts.toNat,
        sleeps := max_attempts.toNat - 1 } ∧
    ∀ g : Nat → GenerationStatus,
      (wait_for_generation g max_attempts delay_seconds).fetches ≤
        max_attempts.toNat := by
  constructor
  · unfold wait_for_generation
    exact pollAux_timeout GenerationStatus.is_completed
      GenerationStatus.is_failed fetch max_attempts.toNat hnt
      max_attempts.toNat 0 (by omega)
  · intro g
    unfold wait_for_generation
    exact pollAux_fetches_le GenerationStatus.is_completed
      GenerationStatus.is_failed g max_attempts.toNat max_attempts.toNat 0
      (by omega)

/-- C2 witness: an always-`generating` stub with `max_attempts = 3` gives
exactly 3 fetches, 2 sleeps, and the timeout outcome, and a stub that
completes on the third call stays within the 3-fetch budget. -/
theorem wait_for_generation_times_out_witness :
    wait_for_generation stubAlwaysGenerating 3 0 =
      { result := PollResult.timeout, fetches := 3, sleeps := 2 } ∧
    (wait_for_generation stubGenThenComplete 3 0).fetches ≤ 3 := by
  have h := wait_for_generation_times_out stubAlwaysGenerating 3 0 (by decide)
    (fun _ => by
      show (genStatusOf "generating").is_completed = false ∧
        (genStatusOf "generating").is_failed = false
      decide)
  exact ⟨h.1, h.2 stubGenThenComplete⟩

/-- C3: if the first status fetch reports `failed`, `wait_for_generation`
raises the job-failed error after exactly 1 fetch and 0 sleeps; the
job-failed outcome is distinct from the timeout outcome and carries no
status object. -/
theorem wait_for_generation_fails_fast
    (fetch : Nat → GenerationStatus) (max_attempts delay_seconds : Int)
    (hM : 1 ≤ max_attempts) (hf : (fetch 0).is_failed = true) :
    wait_for_generation fetch max_attempts delay_seconds =
      { result := PollResult.jobFailed, fetches := 1, sleeps := 0 } ∧
    (PollResult.jobFailed : PollResult GenerationStatus) ≠
      PollResult.timeout ∧
    ∀ s, (PollResult.jobFailed : PollResult GenerationStatus) ≠
      PollResult.success s := by
  refine ⟨?_, by simp, fun s => by simp⟩
  unfold wait_for_generation pollAux
  have hlt : 0 < max_attempts.toNat := by omega
  simp [hlt, hf, GenerationStatus.not_completed_of_failed (fetch 0) hf]

/-- C3 witness: a stub returning `failed` on the first call, with
`max_attempts = 60`. -/
theorem wait_for_generation_fails_fast_witness :
    wait_for_generation stubFailed 60 5 =
      { result := PollResult.jobFailed, fetches := 1, sleeps := 0 } ∧
    (PollResult.jobFailed : PollResult GenerationStatus) ≠
      PollResult.timeout ∧
    ∀ s, (PollResult.jobFailed : PollResult GenerationStatus) ≠
      PollResult.success s :=
  wait_for_generation_fails_fast stubFailed 60 5 (by decide) (by decide)

/-- A generation status whose `data` reports the unrecognized value
`"queued"`. -/
def queuedStatus : GenerationStatus :=
  genStatusOf "queued"

/-- Status-fetch stub that always returns the `queued` status. -/
def stubQueued (_ : Nat) : GenerationStatus :=
  queuedStatus

/-- C4: a fetched status whose `status` value is not exactly the string
`"completed"` and not exactly `"failed"` — including any non-string value,
a missing/empty/falsy `data` object, or `data` lacking a `"status"` key,
all of which make `status` read as `None` — is non-terminal: both terminal
predicates are false, and the polling loop's result on an iteration that
fetches it is whatever the continuation from the next attempt produces. -/
theorem unknown_status_is_nonterminal (g : GenerationStatus)
    (h : ∀ s, g.status = Option.some (PyVal.str s) →
      s ≠ "completed" ∧ s ≠ "failed") :
    g.is_completed = false ∧ g.is_failed = false ∧
    ∀ (fetch : Nat → GenerationStatus) (M a : Nat), fetch a = g → a < M →
      (pollAux GenerationStatus.is_completed GenerationStatus.is_failed
        fetch M a).result =
      (pollAux GenerationStatus.is_completed GenerationStatus.is_failed
        fetch M (a + 1)).result := by
  have hc : g.is_completed = false := by
    rcases hb : g.is_completed with _ | _
    · rfl
    · rw [GenerationStatus.is_completed_iff] at hb
      exact absurd rfl (h "completed" hb).1
  have hf : g.is_failed = false := by
    rcases hb : g.is_failed with _ | _
    · rfl
    · rw [GenerationStatus.is_failed_iff] at hb
      exact absurd rfl (h "failed" hb).2
  refine ⟨hc, hf, fun fetch M a hfa ha => ?_⟩
  conv_lhs => unfold pollAux
  simp only [ha, dite_true, hfa, hc, hf, Bool.false_eq_true, if_false,
    ite_false]
  rcases Nat.lt_or_ge a (M - 1) with h1 | h1
  · simp [h1]
  · simp [show ¬ a < M - 1 by omega]

/-- C4 witness: the `"queued"` status does not terminate the loop — both
predicates are false on it, and at attempt 0 of a 2-attempt loop the result
is that of continuing from attempt 1. -/
theorem unknown_status_is_nonterminal_witness :
    queuedStatus.is_completed = false ∧ queuedStatus.is_failed = false ∧
    (pollAux GenerationStatus.is_completed GenerationStatus.is_failed
      stubQueued 2 0).result =
    (pollAux GenerationStatus.is_completed GenerationStatus.is_failed
      stubQueued 2 1).result := by
  have h := unknown_status_is_nonterminal queuedStatus
    (by
      intro s hs
      have hq : queuedStatus.status = Option.some (PyVal.str "queued") := rfl
      rw [hq] at hs
      injection hs with hs
      injection hs with hs
      subst hs
      exact ⟨by decide, by decide⟩)
  exact ⟨h.1, h.2.1, h.2.2 stubQueued 2 0 rfl (by decide)⟩

/-- C9: with `max_attempts ≤ 0` (Python's `range` is then empty) both
`wait_for_generation` and `wait_for_bulk_generation` perform zero status
fetches and zero sleeps and end immediately in the timeout error. -/
theorem poll_zero_attempts_times_out
    (fetch : Nat → GenerationStatus) (bfetch : Nat → BulkGenerationStatus)
    (max_attempts delay_seconds : Int) (hM : max_attempts ≤ 0) :
    wait_for_generation fetch max_attempts delay_seconds =
      { result := PollResult.timeout, fetches := 0, sleeps := 0 } ∧
    wait_for_bulk_generation bfetch max_attempts delay_seconds =
      { result := PollResult.timeout, fetches := 0, sleeps := 0 } := by
  have h0 : max_attempts.toNat = 0 := by omega
  constructor
  · unfold wait_for_generation pollAux
    simp [h0]
  · unfold wait_for_bulk_generation pollAux
    simp [h0]

/-- C9 witness: at `max_attempts = -1` both loops time out with zero
fetches and zero sleeps. -/
theorem poll_zero_attempts_times_out_witness :
    wait_for_generation stubAlwaysGenerating (-1) 5 =
      { result := PollResult.timeout, fetches := 0, sleeps := 0 } ∧
    wait_for_bulk_generation stubBulk (-1) 10 =
      { result := PollResult.timeout, fetches := 0, sleeps := 0 } :=
  poll_zero_attempts_times_out stubAlwaysGenerating stubBulk (-1) 5
    (by decide)

/-- C8: when the caller does not override them, `wait_for_generation` polls
with `max_attempts = 60` and `delay_seconds = 5`, and
`wait_for_bulk_generation` with `max_attempts = 120` and
`delay_seconds = 10`; applying the functions without the optional arguments
uses exactly those values. -/
theorem polling_defaults
    (fetch : Nat → GenerationStatus) (bfetch : Nat → BulkGenerationStatus) :
    wait_for_generation_default_max_attempts = 60 ∧
    wait_for_generation_default_delay_seconds = 5 ∧
    wait_for_bulk_generation_default_max_attempts = 120 ∧
    wait_for_bulk_generation_default_delay_seconds = 10 ∧
    wait_for_generation fetch = wait_for_generation fetch 60 5 ∧
    wait_for_bulk_generation bfetch = wait_for_bulk_generation bfetch 120 10 :=
  ⟨rfl, rfl, rfl, rfl, rfl, rfl⟩

/-- C6: a request built with only its required fields set serializes to a
payload containing exactly the required keys — `GenerationRequest` with only
a prompt yields `{"prompt": ...}`, and `CompanyInfo` / `CompanyData` with
every (optional) field unset yield the empty mapping, with no null or empty
placeholder for any unset optional field. -/
theorem required_only_serialization (p : String) :
    GenerationRequest.to_dict { prompt := p } = [("prompt", PyVal.str p)] ∧
    CompanyInfo.to_dict {} = [] ∧
    CompanyData.to_dict {} = [] := by
  refine ⟨?_, rfl, rfl⟩
  simp [GenerationRequest.to_dict]

/-- C10: serialization collapses empty-but-set optional collections to
unset: `GenerationRequest.to_dict` with `keywords = []` produces exactly the
payload produced with `keywords = None` (for any prompt and any
`company_info`), and `CompanyInfo.to_dict` with every field `None` is the
empty mapping. -/
theorem empty_keywords_collapse (p : String) (ci : Option CompanyInfo) :
    GenerationRequest.to_dict
      { prompt := p, company_info := ci, keywords := Option.some [] } =
    GenerationRequest.to_dict
      { prompt := p, company_info := ci, keywords := Option.none } ∧
    CompanyInfo.to_dict
      { name := Option.none, description := Option.none,
        industry := Option.none, target_audience := Option.none,
        content_preferences := Option.none, tone := Option.none } = [] := by
  refine ⟨?_, rfl⟩
  simp [GenerationRequest.to_dict]

/-- `msg` mentions `needle`: the string `needle` occurs verbatim inside
`msg`. Used to state whether an error message names an entity. -/
def mentions (msg needle : String) : Prop :=
  ∃ pre post, msg = pre ++ needle ++ post

/-- A wire payload for a `Publication` that lacks the required `"id"` key. -/
def pubMissingId : Dict :=
  [("title", PyVal.str "T"), ("content", PyVal.str "body")]

/-- A wire payload that has `"id"` but lacks the required `"title"` key. -/
def pubMissingTitle : Dict :=
  [("id", PyVal.str "p1")]

/-- A wire payload with the first five required `Publication` keys but
without `"contentLength"`. -/
def pubMissingContentLength : Dict :=
  [("id", PyVal.str "p1"), ("title", PyVal.str "T"),
   ("content", PyVal.str "body"), ("type", PyVal.str "blog"),
   ("status", PyVal.str "draft")]

/-- C5 counterexample: decoding a `Publication` payload that lacks `"id"`
fails with the bare `KeyError` payload `"id"`, which names the missing
field but does not mention the entity `Publication` anywhere in the error. -/
theorem decode_error_does_not_name_entity :
    Publication.from_dict pubMissingId = Except.error "id" ∧
    ¬ mentions "id" "Publication" := by
  constructor
  · rfl
  · rintro ⟨pre, post, h⟩
    have hl := congrArg String.length h
    rw [String.length_append, String.length_append] at hl
    have h2 : "id".length = 2 := rfl
    have h11 : "Publication".length = 11 := rfl
    omega

/-- C5 (amended): decoding a successful response that is missing a required
field fails with a `KeyError` whose payload names the first missing
required field in read order (e.g. `"id"`, `"title"`, `"contentLength"`),
for both `Publication.from_dict` and `Image.from_dict`; the entity being
constructed is not part of the error. -/
theorem from_dict_missing_field_errors_with_field_name (d : Dict) :
    (dictGet d "id" = Option.none →
      Publication.from_dict d = Except.error "id" ∧
      Image.from_dict d = Except.error "id") ∧
    (∀ v, dictGet d "id" = Option.some v →
      dictGet d "title" = Option.none →
      Publication.from_dict d = Except.error "title") ∧
    (∀ v1 v2 v3 v4 v5, dictGet d "id" = Option.some v1 →
      dictGet d "title" = Option.some v2 →
      dictGet d "content" = Option.some v3 →
      dictGet d "type" = Option.some v4 →
      dictGet d "status" = Option.some v5 →
      dictGet d "contentLength" = Option.none →
      Publication.from_dict d = Except.error "contentLength") := by
  refine ⟨fun hid => ⟨?_, ?_⟩, fun v hid htitle => ?_,
    fun v1 v2 v3 v4 v5 hid htitle hcontent htype hstatus hcl => ?_⟩
  · simp [Publication.from_dict, requireKey, hid, Bind.bind, Except.bind]
  · simp [Image.from_dict, requireKey, hid, Bind.bind, Except.bind]
  · simp [Publication.from_dict, requireKey, hid, htitle, Bind.bind,
      Except.bind]
  · simp [Publication.from_dict, requireKey, hid, htitle, hcontent, htype,
      hstatus, hcl, Bind.bind, Except.bind]

/-- C5 (amended) witness: the three concrete payloads above fail with the
errors `"id"` (for both entities), `"title"`, and `"contentLength"`. -/
theorem from_dict_missing_field_errors_with_field_name_witness :
    (Publication.from_dict pubMissingId = Except.error "id" ∧
     Image.from_dict pubMissingId = Except.error "id") ∧
    Publication.from_dict pubMissingTitle = Except.error "title" ∧
    Publication.from_dict pubMissingContentLength =
      Except.error "contentLength" :=
  ⟨(from_dict_missing_field_errors_with_field_name pubMissingId).1 rfl,
   (from_dict_missing_field_errors_with_field_name pubMissingTitle).2.1
     (PyVal.str "p1") rfl rfl,
   (from_dict_missing_field_errors_with_field_name
     pubMissingContentLength).2.2 (PyVal.str "p1") (PyVal.str "T")
     (PyVal.str "body") (PyVal.str "blog") (PyVal.str "draft")
     rfl rfl rfl rfl rfl rfl⟩

/-- Bulk-status wire data in which `completed_prompts + failed_prompts`
exceeds `total_prompts`. -/
def overCountBulkData : Dict :=
  [("status", PyVal.str "processing"), ("completed_prompts", PyVal.int 2),
   ("failed_prompts", PyVal.int 2), ("total_prompts", PyVal.int 3)]

/-- The snapshot the client builds from that wire data, exactly as
`check_bulk_generation_status` would. -/
def overCountBulk : BulkGenerationStatus :=
  check_bulk_generation_status true (Option.some overCountBulkData)
    Option.none Option.none

/-- C7 counterexample: the client accepts (and its accessors report
verbatim) a bulk snapshot with `completed_prompts = 2`,
`failed_prompts = 2`, `total_prompts = 3`, for which
`completed_prompts + failed_prompts ≤ total_prompts` is false — nothing in
the code enforces the invariant. -/
theorem bulk_invariant_not_enforced :
    overCountBulk.completed_prompts = Option.some (PyVal.int 2) ∧
    overCountBulk.failed_prompts = Option.some (PyVal.int 2) ∧
    dictGet overCountBulkData "total_prompts" = Option.some (PyVal.int 3) ∧
    ¬ ((2 : Int) + 2 ≤ 3) :=
  ⟨rfl, rfl, rfl, by decide⟩

/-- C7 (amended): the client does not enforce the bulk invariant; its
accessors return the counts verbatim from the snapshot's `data`, so
`completed_prompts + failed_prompts ≤ total_prompts` holds for a snapshot
exactly when the server-reported data already satisfies it. -/
theorem bulk_counts_reported_verbatim (g : BulkGenerationStatus) (d : Dict)
    (c f t : Int) (hd : g.data = Option.some d) (hne : d.isEmpty = false)
    (hc : dictGet d "completed_prompts" = Option.some (PyVal.int c))
    (hf : dictGet d "failed_prompts" = Option.some (PyVal.int f))
    (ht : dictGet d "total_prompts" = Option.some (PyVal.int t))
    (hinv : c + f ≤ t) :
    g.completed_prompts = Option.some (PyVal.int c) ∧
    g.failed_prompts = Option.some (PyVal.int f) ∧
    dictGet d "total_prompts" = Option.some (PyVal.int t) ∧ c + f ≤ t := by
  refine ⟨?_, ?_, ht, hinv⟩
  · unfold BulkGenerationStatus.completed_prompts
    rw [hd]
    simp [truthyDict, hne, hc]
  · unfold BulkGenerationStatus.failed_prompts
    rw [hd]
    simp [truthyDict, hne, hf]

/-- Bulk-status wire data satisfying the invariant (1 + 1 ≤ 3). -/
def okBulkData : Dict :=
  [("status", PyVal.str "processing"), ("completed_prompts", PyVal.int 1),
   ("failed_prompts", PyVal.int 1), ("total_prompts", PyVal.int 3)]

/-- The snapshot the client builds from the well-formed wire data. -/
def okBulk : BulkGenerationStatus :=
  check_bulk_generation_status true (Option.some okBulkData)
    Option.none Option.none

/-- C7 (amended) witness: on a snapshot whose data reports 1 completed, 1
failed, 3 total, the accessors report those counts and the invariant
holds. -/
theorem bulk_counts_reported_verbatim_witness :
    okBulk.completed_prompts = Option.some (PyVal.int 1) ∧
    okBulk.failed_prompts = Option.some (PyVal.int 1) ∧
    dictGet okBulkData "total_prompts" = Option.some (PyVal.int 3) ∧
    (1 : Int) + 1 ≤ 3 :=
  bulk_counts_reported_verbatim okBulk okBulkData 1 1 3 rfl rfl rfl rfl rfl
    (by decide)

end ContentGem
